import Mathlib

/-!
Verification of the nexus messaging reliability layer: a shallow embedding
of the worker pool (worker/pool.go) and of the JetStream manager
(driver/nats.go), with theorems checking the specified properties.
-/

/- ### Worker pool (worker/pool.go) -/

/-- Outcome of one submitted task body: it returns nil, returns a non-nil
error, or panics while running. -/
inductive TaskOutcome where
  | ok
  | error
  | panicked
deriving DecidableEq, Repr

/-- One observable step of `Pool.Submit` and of the wrapped task it builds:
an atomic add on one of the four metrics counters, or the execution of the
submitted task body itself. -/
inductive CounterEvent where
  | completedAdd (n : Int)
  | failedAdd (n : Int)
  | runningAdd (n : Int)
  | waitingAdd (n : Int)
  | taskRuns
deriving DecidableEq, Repr

/-- Whether the task body panics (so the function unwinds at `taskRuns`). -/
def taskPanics : TaskOutcome → Bool
  | .panicked => true
  | _ => false

/-- Events of the body of `wrappedTask` up to the point where it unwinds or
returns: `RunningTasks.Add(1)`, then the task body;
on a returned error `FailedTasks.Add(1)` and then — the source has no
`return` between them — `CompletedTasks.Add(1)` as well; on a normal return
only `CompletedTasks.Add(1)`; on a panic the body unwinds right away. -/
def wrappedTaskBody (o : TaskOutcome) : List CounterEvent :=
  [.runningAdd 1, .taskRuns] ++
    (match o with
     | .ok => [.completedAdd 1]
     | .error => [.failedAdd 1, .completedAdd 1]
     | .panicked => [])

/-- The deferred function of `wrappedTask`: `RunningTasks.Add(-1)`,
`WaitingTasks.Add(-1)`, and, when `recover()` yields a non-nil value
(exactly when the body panicked), `FailedTasks.Add(1)`. -/
def wrappedTaskDefer (o : TaskOutcome) : List CounterEvent :=
  [.runningAdd (-1), .waitingAdd (-1)] ++
    (if taskPanics o then [.failedAdd 1] else [])

/-- Full event trace of one execution of `wrappedTask`: the body runs, then
the deferred function runs (in Go, also when the body unwinds). -/
def wrappedTaskEvents (o : TaskOutcome) : List CounterEvent :=
  wrappedTaskBody o ++ wrappedTaskDefer o

/-- The deferred function calls `recover()` unconditionally. -/
def deferCallsRecover : Bool := true

/-- Whether a panic in the task body escapes `wrappedTask` (and would reach
the PanicHandler of the ants pool): it does exactly when the body panics and the
deferred function does not recover. -/
def wrappedTaskEscapes (o : TaskOutcome) : Bool :=
  taskPanics o && !deferCallsRecover

/-- Event trace of `Pool.Submit`: a cancelled context is counted failed and
the task never runs; then `WaitingTasks.Add(1)`; a failed pool submission
adds `FailedTasks.Add(1)` and `WaitingTasks.Add(-1)` and the task never
runs; otherwise the wrapped task executes. -/
def submitEvents (ctxCancelled submitFails : Bool) (o : TaskOutcome) : List CounterEvent :=
  if ctxCancelled then [.failedAdd 1]
  else if submitFails then [.waitingAdd 1, .failedAdd 1, .waitingAdd (-1)]
  else .waitingAdd 1 :: wrappedTaskEvents o

/-- The four counters of `worker.Metrics`. -/
structure Metrics where
  completedTasks : Int
  failedTasks : Int
  runningTasks : Int
  waitingTasks : Int
deriving DecidableEq, Repr

/-- Apply one counter event to the metrics (the `taskRuns` marker changes
no counter). -/
def applyEvent (m : Metrics) : CounterEvent → Metrics
  | .completedAdd n => { m with completedTasks := m.completedTasks + n }
  | .failedAdd n => { m with failedTasks := m.failedTasks + n }
  | .runningAdd n => { m with runningTasks := m.runningTasks + n }
  | .waitingAdd n => { m with waitingTasks := m.waitingTasks + n }
  | .taskRuns => m

/-- Apply a trace of counter events in order. -/
def applyEvents (m : Metrics) (es : List CounterEvent) : Metrics :=
  es.foldl applyEvent m

/-- All-zero starting metrics, as in `NewPool`. -/
def zeroMetrics : Metrics := ⟨0, 0, 0, 0⟩

/-- Whether an event is the execution of the task body. -/
def isBodyRun : CounterEvent → Bool
  | .taskRuns => true
  | _ => false

/-- The counter events that happen strictly before the task body starts. -/
def beforeBody (es : List CounterEvent) : List CounterEvent :=
  es.takeWhile (fun e => !isBodyRun e)

/- ### Subscription dispatch (driver/nats.go, Subscribe) -/

/-- The task that `Subscribe` submits to the worker pool for one inbound
message: it calls the handler and, if the handler returned an error, logs
it; in either case the task returns nil. -/
def subscribeWrappedTask (handlerResult : Option String) : Option String :=
  match handlerResult with
  | some _ => none
  | none => none

/-- The pool-level outcome of the task `Subscribe` submits: an error return
would count as `.error`, a nil return as `.ok`. -/
def subscribeTaskOutcome (handlerResult : Option String) : TaskOutcome :=
  match subscribeWrappedTask handlerResult with
  | some _ => .error
  | none => .ok

/- ### Publish retry loop (driver/nats.go, Publish / shouldRetry / sleep) -/

/-- Errors `js.Publish` can return, distinguishing the two sentinel errors
that `shouldRetry` inspects from every other error. -/
inductive BrokerErr where
  | jetStreamNotEnabled
  | invalidJSAck
  | other (msg : String)
deriving DecidableEq, Repr

/-- Embeds `shouldRetry`: false exactly for `nats.ErrJetStreamNotEnabled`
and `nats.ErrInvalidJSAck`, true for every other error. -/
def shouldRetry : BrokerErr → Bool
  | .jetStreamNotEnabled => false
  | .invalidJSAck => false
  | .other _ => true

/-- Errors `Publish` can return: the wrapped context cancellation checked
at the top of the loop, the cancellation observed inside `sleep`, and the
final wrap naming the attempt count and the last broker error. -/
inductive PubError where
  | ctxCancelled
  | ctxCancelledDuringRetry
  | afterAttempts (n : Nat) (last : Option BrokerErr)
deriving DecidableEq, Repr

/-- Observable behaviour of one `Publish` call: how many broker publish
attempts were made, which backoff sleeps completed in full (durations in
milliseconds, in order), and the returned error (none on success). -/
structure PublishLog where
  attempts : Nat
  sleeps : List Nat
  result : Option PubError
deriving DecidableEq, Repr

/-- The `maxRetries` constant of `Publish`. -/
def maxRetries : Nat := 3

/-- The `backoff` base delay constant of `Publish`, in milliseconds. -/
def backoffMs : Nat := 100

/-- The delay `sleep` uses for a given attempt index:
`backoff * (1 << attempt)`. -/
def sleepDurMs (attempt : Nat) : Nat := backoffMs * 2 ^ attempt

/-- Whether `ctx.Err()` is non-nil at time `t` (milliseconds since the call
began), given the time at which the context is cancelled, if any. -/
def ctxDoneAt (cancelAt : Option Nat) (t : Nat) : Bool :=
  match cancelAt with
  | none => false
  | some c => decide (c ≤ t)

/-- Whether the context fires before a sleep of duration `d` started at
time `t` completes, so the select in `sleep` takes the `ctx.Done()` branch. -/
def sleepHitsCancel (cancelAt : Option Nat) (t d : Nat) : Bool :=
  match cancelAt with
  | none => false
  | some c => decide (c < t + d)

/-- The retry loop of `Publish`. `f` gives the result of the broker publish
on each attempt index (none = acknowledged), `cancelAt` the context
cancellation time, `fuel` the remaining loop iterations, `attempt` the
current index, `t` the clock, `lastErr` the `lastErr` variable. Each
iteration: check the context; attempt the publish; on success return nil;
on the last attempt, or on a non-retryable error, break to the final wrap;
otherwise sleep with exponential backoff, returning the cancellation
error of the sleep when the context fires during it. -/
def publishFrom (f : Nat → Option BrokerErr) (cancelAt : Option Nat) :
    Nat → Nat → Nat → Option BrokerErr → PublishLog
  | 0, _, _, lastErr =>
    { attempts := 0, sleeps := [], result := some (.afterAttempts maxRetries lastErr) }
  | fuel + 1, attempt, t, _ =>
    if ctxDoneAt cancelAt t then
      { attempts := 0, sleeps := [], result := some .ctxCancelled }
    else
      match f attempt with
      | none => { attempts := 1, sleeps := [], result := none }
      | some e =>
        if attempt == maxRetries - 1 then
          { attempts := 1, sleeps := [], result := some (.afterAttempts maxRetries (some e)) }
        else if !shouldRetry e then
          { attempts := 1, sleeps := [], result := some (.afterAttempts maxRetries (some e)) }
        else if sleepHitsCancel cancelAt t (sleepDurMs attempt) then
          { attempts := 1, sleeps := [], result := some .ctxCancelledDuringRetry }
        else
          let rest := publishFrom f cancelAt fuel (attempt + 1) (t + sleepDurMs attempt) (some e)
          { attempts := 1 + rest.attempts,
            sleeps := sleepDurMs attempt :: rest.sleeps,
            result := rest.result }

/-- Embeds `jetStreamNatsManager.Publish`: the loop starts at attempt 0,
time 0, with `lastErr` nil and `maxRetries` iterations available. -/
def Publish (f : Nat → Option BrokerErr) (cancelAt : Option Nat) : PublishLog :=
  publishFrom f cancelAt maxRetries 0 0 none

/- ### Stream reconciliation (driver/nats.go) -/

/-- Storage class of a stream (`nats.StorageType`). -/
inductive StorageType where
  | memory
  | file
deriving DecidableEq, Repr

/-- Retention mode of a stream (`nats.RetentionPolicy`). -/
inductive RetentionPolicy where
  | limits
  | interest
  | workQueue
deriving DecidableEq, Repr

/-- The fields of `nats.StreamConfig` that the manager sets and compares. -/
structure StreamConfig where
  name : String
  subjects : List String
  storage : StorageType
  retention : RetentionPolicy
  maxAge : Int
  maxMsgs : Int
  maxBytes : Int
deriving DecidableEq, Repr

/-- Embeds `stringSlicesEqual`: equal lengths and element-wise equality at
every index, so two lists holding the same patterns in different order
compare unequal. -/
def stringSlicesEqual (a b : List String) : Bool :=
  if a.length ≠ b.length then false
  else (a.zip b).all fun p => p.1 == p.2

/-- Embeds `isStreamConfigDifferent`: true when max age, max msgs, max
bytes, storage, retention, or the subject list differs. -/
def isStreamConfigDifferent (a b : StreamConfig) : Bool :=
  a.maxAge != b.maxAge ||
  a.maxMsgs != b.maxMsgs ||
  a.maxBytes != b.maxBytes ||
  a.storage != b.storage ||
  a.retention != b.retention ||
  !stringSlicesEqual a.subjects b.subjects

/-- Observable behaviour of `updateStreamIfNeeded`: the `UpdateStream`
calls issued (each carrying the config passed to it) and the returned
error. -/
structure ReconcileLog where
  updates : List StreamConfig
  result : Option String
deriving DecidableEq, Repr

/-- Embeds `updateStreamIfNeeded`: when the existing config does not differ
from the desired one, no update call and nil; otherwise exactly one
`UpdateStream` call with the desired config, returning the error of that call. -/
def updateStreamIfNeeded (existing desired : StreamConfig) (updateErr : Option String) :
    ReconcileLog :=
  if !isStreamConfigDifferent existing desired then
    { updates := [], result := none }
  else
    { updates := [desired], result := updateErr }

/- ### Stream creation (driver/nats.go, createStream) -/

/-- Result of `createStream`: success (nil), or the creation error wrapped
as "failed to create stream". -/
inductive CreateStreamResult where
  | ok
  | wrappedError (msg : String)
deriving DecidableEq, Repr

/-- Embeds `strings.Contains`: some suffix of `s` starts with `sub`. -/
def strContainsSubstr (s sub : String) : Bool :=
  (List.range (s.toList.length + 1)).any fun i => sub.toList.isPrefixOf (s.toList.drop i)

/-- The substring `createStream` looks for in the creation error. -/
def overlapIndicator : String := "subjects overlap"

/-- Embeds `createStream` after `AddStream` returned: nil error means the
stream was created; an error whose message contains "subjects overlap" is
reclassified as success; any other error is returned wrapped. -/
def createStream (addStreamErr : Option String) : CreateStreamResult :=
  match addStreamErr with
  | none => .ok
  | some msg =>
    if strContainsSubstr msg overlapIndicator then .ok
    else .wrappedError msg

/- ### Theorems about the worker pool -/

/-- C1: for a task that returns a non-nil error, `wrappedTask` increments
the failed counter and then, because the error branch does not return,
also increments the completed counter: both counters move by one for the
same executed task, contradicting the claim that exactly one of them
increments. -/
theorem errorTask_increments_completed_and_failed :
    (applyEvents zeroMetrics (wrappedTaskEvents .error)).completedTasks = 1 ∧
    (applyEvents zeroMetrics (wrappedTaskEvents .error)).failedTasks = 1 := by
  decide

/-- C4 counterexample: at the moment the task body starts running (just
after `RunningTasks.Add(1)`), the waiting counter still holds the increment
made by `Submit` — it is 1, not 0 — so during execution the task is counted
in waiting, contrary to the claim that waiting decrements exactly when
execution begins. -/
theorem waiting_still_counted_while_running :
    (applyEvents zeroMetrics (beforeBody (submitEvents false false .ok))).waitingTasks = 1 ∧
    ¬ (applyEvents zeroMetrics (beforeBody (submitEvents false false .ok))).waitingTasks = 0 := by
  decide

/-- C4 (amended): running increments exactly when execution begins and is
back to its initial value when execution ends, for every ending (normal
return, returned error, recovered panic); waiting, however, decrements only
in the deferred function at execution end, so while the body executes the
task is counted in both running and waiting. -/
theorem pool_counter_timing (m : Metrics) (o : TaskOutcome) :
    (applyEvents m (beforeBody (submitEvents false false o))).runningTasks
      = m.runningTasks + 1 ∧
    (applyEvents m (beforeBody (submitEvents false false o))).waitingTasks
      = m.waitingTasks + 1 ∧
    (applyEvents m (submitEvents false false o)).runningTasks = m.runningTasks ∧
    (applyEvents m (submitEvents false false o)).waitingTasks = m.waitingTasks := by
  cases o <;>
    simp [submitEvents, wrappedTaskEvents, wrappedTaskBody, wrappedTaskDefer, taskPanics,
      beforeBody, isBodyRun, applyEvents, applyEvent]

/-- C8: a task that panics is recovered at the pool boundary: the failed
counter moves by exactly one (and the trace holds exactly one failed
increment), the completed counter does not move, the panic never escapes
the wrapped task, and a subsequent submitted task still runs normally,
incrementing completed while leaving failed at its post-panic value. -/
theorem panic_recovered_and_counted_once (m : Metrics) :
    (applyEvents m (submitEvents false false .panicked)).failedTasks = m.failedTasks + 1 ∧
    (applyEvents m (submitEvents false false .panicked)).completedTasks = m.completedTasks ∧
    (wrappedTaskEvents .panicked).count (.failedAdd 1) = 1 ∧
    wrappedTaskEscapes .panicked = false ∧
    (applyEvents (applyEvents m (submitEvents false false .panicked))
        (submitEvents false false .ok)).completedTasks = m.completedTasks + 1 ∧
    (applyEvents (applyEvents m (submitEvents false false .panicked))
        (submitEvents false false .ok)).failedTasks = m.failedTasks + 1 := by
  refine ⟨?_, ?_, by decide, by decide, ?_, ?_⟩ <;>
    simp [submitEvents, wrappedTaskEvents, wrappedTaskBody, wrappedTaskDefer, taskPanics,
      applyEvents, applyEvent]

/-- C10: the task `Subscribe` submits for an inbound message returns nil
even when the handler returned an error (the error is only logged), so the
pool counts the message as completed and the failed counter is unchanged. -/
theorem handler_error_counted_completed (m : Metrics) (e : String) :
    subscribeWrappedTask (some e) = none ∧
    (applyEvents m (submitEvents false false (subscribeTaskOutcome (some e)))).completedTasks
      = m.completedTasks + 1 ∧
    (applyEvents m (submitEvents false false (subscribeTaskOutcome (some e)))).failedTasks
      = m.failedTasks := by
  refine ⟨rfl, ?_, ?_⟩ <;>
    simp [subscribeTaskOutcome, subscribeWrappedTask, submitEvents, wrappedTaskEvents,
      wrappedTaskBody, wrappedTaskDefer, taskPanics, applyEvents, applyEvent]

/- ### Theorems about the publish retry loop -/

/-- C2 counterexample: with a broker failing every attempt with a retryable
error and a context that never fires, `Publish` makes exactly 3 attempts
but completes exactly two backoff sleeps, of 100ms and 200ms — not the
claimed three delays 100ms, 200ms and 400ms, because no sleep follows the
final attempt. -/
theorem publish_backoff_counterexample :
    (Publish (fun _ => some (.other "boom")) none).attempts = 3 ∧
    (Publish (fun _ => some (.other "boom")) none).sleeps = [100, 200] ∧
    (Publish (fun _ => some (.other "boom")) none).sleeps ≠ ([100, 200, 400] : List Nat) := by
  refine ⟨rfl, rfl, by decide⟩

/-- C2 (amended): with a non-cancelled context and a broker failing every
attempt with a retryable error, `Publish` makes exactly 3 attempts,
sleeping between consecutive attempts with exponential backoff delays of
100ms then 200ms (no sleep follows the final attempt), and returns the
error wrapping the last observed error with the attempt count. -/
theorem publish_retry_exhaustion (f : Nat → Option BrokerErr) (e0 e1 e2 : BrokerErr)
    (h0 : f 0 = some e0) (h1 : f 1 = some e1) (h2 : f 2 = some e2)
    (r0 : shouldRetry e0 = true) (r1 : shouldRetry e1 = true) (_hr2 : shouldRetry e2 = true) :
    Publish f none
      = { attempts := 3, sleeps := [100, 200],
          result := some (.afterAttempts 3 (some e2)) } := by
  simp [Publish, publishFrom, maxRetries, ctxDoneAt, sleepHitsCancel, sleepDurMs, backoffMs,
    h0, h1, h2, r0, r1]

/-- C2 witness: the amended exhaustion theorem applied to a broker that
always fails with the retryable error "boom". -/
theorem publish_retry_exhaustion_witness :
    Publish (fun _ => some (.other "boom")) none
      = { attempts := 3, sleeps := [100, 200],
          result := some (.afterAttempts 3 (some (.other "boom"))) } :=
  publish_retry_exhaustion _ _ _ _ rfl rfl rfl rfl rfl rfl

/-- C6: with a non-cancelled context, a first attempt failing with an error
classified non-retryable makes `Publish` return after exactly 1 attempt,
with no sleep, and with an error wrapping that error. -/
theorem publish_nonretryable_one_attempt (f : Nat → Option BrokerErr) (e : BrokerErr)
    (h0 : f 0 = some e) (hnr : shouldRetry e = false) :
    Publish f none
      = { attempts := 1, sleeps := [],
          result := some (.afterAttempts maxRetries (some e)) } := by
  simp [Publish, publishFrom, maxRetries, ctxDoneAt, h0, hnr]

/-- C6 witness: the non-retryable short circuit at the JetStream-disabled
sentinel error. -/
theorem publish_nonretryable_one_attempt_witness :
    Publish (fun _ => some .jetStreamNotEnabled) none
      = { attempts := 1, sleeps := [],
          result := some (.afterAttempts maxRetries (some .jetStreamNotEnabled)) } :=
  publish_nonretryable_one_attempt _ _ rfl rfl

/-- C7: when the context fires strictly inside a backoff sleep — the first
sleep covers times 0 to 100, the second (after two failed attempts) times
100 to 300 — `Publish` returns the cancellation error of the sleep immediately
and performs no publish attempt after the cancellation. -/
theorem publish_cancel_during_backoff :
    (∀ (f : Nat → Option BrokerErr) (e : BrokerErr) (c : Nat),
        f 0 = some e → shouldRetry e = true → 0 < c → c < 100 →
        Publish f (some c)
          = { attempts := 1, sleeps := [], result := some .ctxCancelledDuringRetry }) ∧
    (∀ (f : Nat → Option BrokerErr) (e0 e1 : BrokerErr) (c : Nat),
        f 0 = some e0 → f 1 = some e1 →
        shouldRetry e0 = true → shouldRetry e1 = true → 100 < c → c < 300 →
        Publish f (some c)
          = { attempts := 2, sleeps := [100], result := some .ctxCancelledDuringRetry }) := by
  constructor
  · intro f e c h0 hr hc1 hc2
    have hd : ctxDoneAt (some c) 0 = false := by
      simp [ctxDoneAt, decide_eq_false_iff_not]; omega
    have hs : sleepHitsCancel (some c) 0 (sleepDurMs 0) = true := by
      simp [sleepHitsCancel, sleepDurMs, backoffMs, decide_eq_true_eq]; omega
    simp [Publish, publishFrom, maxRetries, hd, h0, hr, hs]
  · intro f e0 e1 c h0 h1 hr0 hr1 hc1 hc2
    have hd0 : ctxDoneAt (some c) 0 = false := by
      simp [ctxDoneAt, decide_eq_false_iff_not]; omega
    have hs0 : sleepHitsCancel (some c) 0 100 = false := by
      simp [sleepHitsCancel, decide_eq_false_iff_not]; omega
    have hd1 : ctxDoneAt (some c) 100 = false := by
      simp [ctxDoneAt, decide_eq_false_iff_not]; omega
    have hs1 : sleepHitsCancel (some c) 100 200 = true := by
      simp [sleepHitsCancel, decide_eq_true_eq]; omega
    simp [Publish, publishFrom, maxRetries, hd0, h0, hr0, hs0, hd1, h1, hr1, hs1,
      sleepDurMs, backoffMs]

/-- C7 witness: cancellation at 50ms, inside the first backoff sleep, with
a broker failing the first attempt with a retryable error. -/
theorem publish_cancel_during_backoff_witness :
    Publish (fun _ => some (.other "boom")) (some 50)
      = { attempts := 1, sleeps := [], result := some .ctxCancelledDuringRetry } :=
  publish_cancel_during_backoff.1 _ _ 50 rfl rfl (by decide) (by decide)

/- ### Theorems about stream reconciliation and creation -/

/-- The embedded element-wise slice comparison agrees with list equality,
so it is order-sensitive: lists holding the same strings in a different
order are unequal lists and compare as different. -/
theorem stringSlicesEqual_iff (a b : List String) : stringSlicesEqual a b = true ↔ a = b := by
  induction a generalizing b with
  | nil => cases b <;> simp [stringSlicesEqual]
  | cons x xs ih =>
    cases b with
    | nil => simp [stringSlicesEqual]
    | cons y ys =>
      by_cases hl : xs.length = ys.length
      · have ihy := ih ys
        simp [stringSlicesEqual, hl] at ihy ⊢
        tauto
      · have hne : xs ≠ ys := fun h => hl (by rw [h])
        simp [stringSlicesEqual, hl, hne]

/-- The config comparison is true exactly when one of the six compared
fields differs, with the subject lists compared as lists. -/
theorem isStreamConfigDifferent_iff (a b : StreamConfig) :
    isStreamConfigDifferent a b = true ↔
      (a.maxAge ≠ b.maxAge ∨ a.maxMsgs ≠ b.maxMsgs ∨ a.maxBytes ≠ b.maxBytes ∨
        a.storage ≠ b.storage ∨ a.retention ≠ b.retention ∨ a.subjects ≠ b.subjects) := by
  simp only [isStreamConfigDifferent, Bool.or_eq_true, bne_iff_ne, Bool.not_eq_true',
    Bool.eq_false_iff, Ne, stringSlicesEqual_iff]
  tauto

/-- C3: reconciliation of an existing stream issues exactly one update
call, carrying the desired configuration, exactly when one of max age, max
message count, max total bytes, storage class, retention mode, or the
subject list (compared order-sensitively, as lists) differs; when no
compared field differs it issues zero update calls. -/
theorem reconcile_update_iff (e d : StreamConfig) (uerr : Option String) :
    ((updateStreamIfNeeded e d uerr).updates = [d] ∨
      (updateStreamIfNeeded e d uerr).updates = []) ∧
    ((updateStreamIfNeeded e d uerr).updates = [d] ↔
      (e.maxAge ≠ d.maxAge ∨ e.maxMsgs ≠ d.maxMsgs ∨ e.maxBytes ≠ d.maxBytes ∨
        e.storage ≠ d.storage ∨ e.retention ≠ d.retention ∨ e.subjects ≠ d.subjects)) ∧
    ((updateStreamIfNeeded e d uerr).updates = [] ↔
      (e.maxAge = d.maxAge ∧ e.maxMsgs = d.maxMsgs ∧ e.maxBytes = d.maxBytes ∧
        e.storage = d.storage ∧ e.retention = d.retention ∧ e.subjects = d.subjects)) := by
  by_cases h : isStreamConfigDifferent e d = true
  · have hd := (isStreamConfigDifferent_iff e d).mp h
    simp [updateStreamIfNeeded, h]
    tauto
  · have hd : ¬ (e.maxAge ≠ d.maxAge ∨ e.maxMsgs ≠ d.maxMsgs ∨ e.maxBytes ≠ d.maxBytes ∨
        e.storage ≠ d.storage ∨ e.retention ≠ d.retention ∨ e.subjects ≠ d.subjects) :=
      fun hc => h ((isStreamConfigDifferent_iff e d).mpr hc)
    simp [updateStreamIfNeeded, h]
    tauto

/-- The embedded `strings.Contains` holds exactly when the needle occurs as
a contiguous substring, that is, when the haystack splits as a prefix, the
needle, and a suffix. -/
theorem strContainsSubstr_iff (s sub : String) :
    strContainsSubstr s sub = true ↔
      ∃ pre post : List Char, s.toList = pre ++ sub.toList ++ post := by
  unfold strContainsSubstr
  simp only [List.any_eq_true, List.mem_range, List.isPrefixOf_iff_prefix]
  constructor
  · rintro ⟨i, _, t, ht⟩
    refine ⟨s.toList.take i, t, ?_⟩
    rw [List.append_assoc, ht, List.take_append_drop]
  · rintro ⟨pre, post, hs⟩
    refine ⟨pre.length, ?_, ?_⟩
    · have hlen : pre.length ≤ s.toList.length := by
        rw [hs]; simp only [List.length_append]; omega
      omega
    · rw [hs, List.append_assoc, List.drop_left]
      exact ⟨post, rfl⟩

/-- C5: when `AddStream` fails, `createStream` returns success exactly when
the error message contains "subjects overlap" as a substring; with any
other message it returns that error wrapped. -/
theorem createStream_overlap_is_success (msg : String) :
    (createStream (some msg) = .ok ↔
      ∃ pre post : List Char, msg.toList = pre ++ overlapIndicator.toList ++ post) ∧
    (createStream (some msg) = .ok ∨ createStream (some msg) = .wrappedError msg) := by
  by_cases h : strContainsSubstr msg overlapIndicator = true
  · have hc := (strContainsSubstr_iff msg overlapIndicator).mp h
    simp [createStream, h]
    simpa using hc
  · have hnot : ¬ ∃ pre post : List Char,
        msg.toList = pre ++ overlapIndicator.toList ++ post :=
      fun hc => h ((strContainsSubstr_iff msg overlapIndicator).mpr hc)
    simp [createStream, h]
    simpa using hnot
